import Mathlib

/-!
Verification development for `upload.py`, a one-shot batch tool that reads
MARC21 bibliographic collections, extracts "electronic location and access"
(tag 856) link fields, filters them by access method and media type, and
registers the accepted files against a provider API while keeping running
totals.

The Python source is shallowly embedded: pure helper functions become Lean
functions; Python values that may be `None` become `Option`; uncaught Python
exceptions (AttributeError, IndexError, ValueError, TypeError) become an
explicit `FatalError` in an `Except` result; the two network effects
(document fetch, registration POST) are abstracted as inputs (the parsed
record list, and an `HttpOutcome` per registration attempt).  Python integers
are `Int`; Python `%` is `Int.fmod` (remainder takes the divisor's sign, as
in Python).
-/

/-- Uncaught Python exceptions of the script, by the operation that raises
them.  Each constructor corresponds to one distinct crash site. -/
inductive FatalError where
  /-- `AttributeError`: `control_number.split(';')` with `control_number = None`
  (no `w` subfield), in `parse_md5` via `get_md5_checksum`. -/
  | attributeErrorNoneSplit
  /-- `IndexError`: `control_number.split(';')[1]` when the control number has
  no `;` separator, in `parse_md5`. -/
  | indexErrorChecksum
  /-- `ValueError`: `int(size)` on a non-numeric size subfield, in `get_size`. -/
  | valueErrorInt
  /-- `ValueError("Invalid IPv6 URL")`: raised by `urllib.parse.urlparse`
  inside `strip_server_url` when the authority contains an unbalanced
  square bracket. -/
  | valueErrorInvalidIPv6
  /-- `AttributeError`: `urlparse(None)` inside `strip_server_url` when the
  field has no `u` subfield. -/
  | attributeErrorNoneUrl
  /-- `TypeError`: `total_size += get_size(file_field)` when `get_size`
  returned `None` (absent size subfield) after a successful registration. -/
  | typeErrorNonePlusInt
  /-- `TypeError`: `for file_field in file_fields` when `get_file_fields`
  returned `None` (collection document yields no record). -/
  | typeErrorNoneNotIterable
deriving DecidableEq, Repr

/-- One MARC data field as exposed by `pymarc`: its tag (e.g. `"856"`), its
first indicator, and the ordered list of subfields as (code, value) pairs. -/
structure MarcField where
  tag : String
  indicator1 : String
  subfields : List (String × String)
deriving DecidableEq, Repr

/-- A bibliographic record: the ordered list of its data fields. -/
def Record : Type := List MarcField

/-- Tag of "electronic location and access" fields (source constant
`ELECTRONIC_LOCATION_AND_ACCESS = '856'`). -/
def ELECTRONIC_LOCATION_AND_ACCESS : String := "856"

/-- Source constant `HTTP_ACCESS_METHOD = '4'`. -/
def HTTP_ACCESS_METHOD : String := "4"

/-- Source constant `ACCEPTED_TYPES = ['MP4', 'MKV', 'MOV']`. -/
def ACCEPTED_TYPES : List String := ["MP4", "MKV", "MOV"]

/-- `pymarc`'s `record.get_fields(tag)`: all fields with the given tag, in
record order. -/
def get_fields (record : Record) (tag : String) : List MarcField :=
  record.filter (fun f => f.tag == tag)

/-- `pymarc`'s `field.get_subfields(code)`: the values of all subfields with
the given code, in field order. -/
def get_subfields (field : MarcField) (subfield_name : String) : List String :=
  (field.subfields.filter (fun p => p.1 == subfield_name)).map Prod.snd

/-- Source `get_subfield`: first value of the named subfield, or `None` when
the subfield list is empty (Python truthiness of a list). -/
def get_subfield (field : MarcField) (subfield_name : String) : Option String :=
  (get_subfields field subfield_name).head?

/-- Source `get_access_method`: the field's first indicator. -/
def get_access_method (field : MarcField) : String :=
  field.indicator1

/-- Source `is_http_access_method`. -/
def is_http_access_method (field : MarcField) : Bool :=
  get_access_method field == HTTP_ACCESS_METHOD

/-- Source `get_type`: first `q` subfield value, if any. -/
def get_type (field : MarcField) : Option String :=
  get_subfield field "q"

/-- Source `get_control_number`: first `w` subfield value, if any. -/
def get_control_number (field : MarcField) : Option String :=
  get_subfield field "w"

/-- Source `get_uri`: first `u` subfield value, if any. -/
def get_uri (field : MarcField) : Option String :=
  get_subfield field "u"

/-- Python's `str.split(sep)` for a single-character separator: always yields
at least one (possibly empty) segment; a separator occurrence always opens a
new segment. -/
def pySplit (sep : Char) : List Char → List (List Char)
  | [] => [[]]
  | c :: cs =>
    if c = sep then [] :: pySplit sep cs
    else
      match pySplit sep cs with
      | s :: ss => (c :: s) :: ss
      | [] => [[c]]

/-- Source `parse_md5`: `control_number.split(';')[1]`.  The index raises
`IndexError` when the split has no second segment, i.e. when the control
number contains no `;`. -/
def parse_md5 (control_number : String) : Except FatalError String :=
  match (pySplit ';' control_number.data).get? 1 with
  | some seg => .ok (String.mk seg)
  | none => .error .indexErrorChecksum

/-- Source `get_md5_checksum`: applies `parse_md5` to the control number;
`None.split` raises `AttributeError` when the `w` subfield is absent. -/
def get_md5_checksum (field : MarcField) : Except FatalError String :=
  match get_control_number field with
  | none => .error .attributeErrorNoneSplit
  | some cn => parse_md5 cn

/-- ASCII whitespace stripped by Python's `int(str)` (Unicode space
characters, also stripped by Python, are not modelled). -/
def isPySpace (c : Char) : Bool :=
  c == ' ' || c == '\t' || c == '\n' || c == '\x0d' || c == '\x0b' || c == '\x0c'

/-- Value of a nonempty all-ASCII-digit string, else `none`. -/
def digitsToNat (ds : List Char) : Option Nat :=
  if ds.isEmpty then none
  else if ds.all Char.isDigit then
    some (ds.foldl (fun acc c => 10 * acc + (c.toNat - 48)) 0)
  else none

/-- Python's `int(str)`: strip surrounding whitespace, optional sign, decimal
digits; `none` models the `ValueError` on anything else.  (Underscore digit
grouping and non-ASCII decimal digits, which Python also accepts, are not
modelled.) -/
def pyInt (s : String) : Option Int :=
  let cs := ((s.data.dropWhile isPySpace).reverse.dropWhile isPySpace).reverse
  match cs with
  | '+' :: ds => (digitsToNat ds).map (fun n => (n : Int))
  | '-' :: ds => (digitsToNat ds).map (fun n => -(n : Int))
  | ds => (digitsToNat ds).map (fun n => (n : Int))

/-- Source `get_size`: first `s` subfield value parsed with `int` when the
value is truthy (non-`None` and nonempty); `None` otherwise.  A non-numeric
value raises `ValueError`. -/
def get_size (field : MarcField) : Except FatalError (Option Int) :=
  match get_subfield field "s" with
  | none => .ok none
  | some s =>
    if s == "" then .ok none
    else
      match pyInt s with
      | some n => .ok (some n)
      | none => .error .valueErrorInt

/-- The characters allowed in a URL scheme by `urllib.parse`
(`scheme_chars`): ASCII letters, digits, `+`, `-`, `.`. -/
def isSchemeChar (c : Char) : Bool :=
  c.isAlpha || c.isDigit || c == '+' || c == '-' || c == '.'

/-- Split a character list at the first occurrence of `sep`: the part before
it, and the part after it when `sep` occurs. -/
def breakAtFirst (sep : Char) : List Char → List Char × Option (List Char)
  | [] => ([], none)
  | c :: cs =>
    if c = sep then ([], some cs)
    else
      let r := breakAtFirst sep cs
      (c :: r.1, r.2)

/-- The part of a character list before the first occurrence of `sep` (the
whole list when `sep` is absent): Python's `url.split(sep, 1)[0]`. -/
def beforeFirst (sep : Char) (cs : List Char) : List Char :=
  (breakAtFirst sep cs).1

/-- `urllib.parse` scheme detection: the prefix before the first `:` is a
scheme when it is nonempty, starts with an ASCII letter and consists of
scheme characters only.  Returns the lowercased scheme (empty when none was
found — `urlsplit` leaves `scheme = ''`) and the remaining URL (unchanged
when no scheme was found). -/
def splitScheme (cs : List Char) : List Char × List Char :=
  match breakAtFirst ':' cs with
  | (c :: pre, some post) =>
    if c.isAlpha && (c :: pre).all isSchemeChar then
      ((c :: pre).map Char.toLower, post)
    else ([], cs)
  | _ => ([], cs)

/-- `urllib.parse.uses_params`: the schemes for which `urlparse` separates
`;params` from the path. -/
def uses_params : List String :=
  ["", "ftp", "hdl", "prospero", "http", "imap", "https", "shttp", "rtsp",
    "rtsps", "rtspu", "sip", "sips", "mms", "sftp", "tel"]

/-- `urllib.parse._splitnetloc`: the network location extends to the first
`/`, `?` or `#`; the remainder keeps that delimiter. -/
def takeNetloc : List Char → List Char × List Char
  | [] => ([], [])
  | c :: cs =>
    if c = '/' ∨ c = '?' ∨ c = '#' then ([], c :: cs)
    else
      let r := takeNetloc cs
      (c :: r.1, r.2)

/-- `urllib.parse._splitparams`, applied by `urlparse` to the path: when the
path contains `;`, drop everything from the first `;` of the last path
segment on (the whole path when the path has no `/`). -/
def splitparams (path : List Char) : List Char :=
  if path.contains ';' then
    if path.contains '/' then
      let seg := (path.reverse.takeWhile (fun c => c ≠ '/')).reverse
      if seg.contains ';' then
        path.take (path.length - seg.length) ++ beforeFirst ';' seg
      else path
    else beforeFirst ';' path
  else path

/-- The path as `urlparse` computes it from the post-netloc remainder and
the scheme: fragment split at the first `#`, query split at the first `?`,
then `;params` separated — but only for schemes in `uses_params`. -/
def parsePathFor (scheme : List Char) (rest : List Char) : List Char :=
  let path := beforeFirst '?' (beforeFirst '#' rest)
  if uses_params.contains (String.mk scheme) then splitparams path else path

/-- CPython's `urllib.parse.urlparse`, restricted to the two components
`strip_server_url` reads: whether a scheme is present (the scheme is kept as
its lowercased text), and the path (with `;params` split off for the schemes
in `uses_params`).  Modelled from CPython 3.11 `urlsplit`: ASCII tab, CR and
LF are removed from the input, the scheme is the valid prefix before the
first `:`, a leading `//` opens a network-location part ending at the first
`/`, `?` or `#`, the fragment is split at the first `#` and then the query
at the first `?`.  The `ValueError("Invalid IPv6 URL")` raised when the
network location contains a `[` without `]` (or vice versa) is modelled by
the `.error` branch when `checkBrackets` is set; CPython's additional
rejection of non-ASCII network locations that NFKC-normalize into
separators, its 3.11+ validation of the inside of bracketed hosts, and its
3.12+ stripping of surrounding control characters are not modelled (they
concern inputs none of the claims touch). -/
def urlparseRaw (url : String) : (List Char × List Char) × Bool :=
  let cs := url.data.filter (fun c => !(c == '\x09' || c == '\x0d' || c == '\x0a'))
  let sr := splitScheme cs
  match sr.2 with
  | '/' :: '/' :: r =>
    let nr := takeNetloc r
    ((sr.1, parsePathFor sr.1 nr.2), nr.1.contains '[' != nr.1.contains ']')
  | other => ((sr.1, parsePathFor sr.1 other), false)

/-- `urlparseRaw` with the bracket validation applied (when `checkBrackets`):
the faithful `urlparse`, raising on an unbalanced bracket. -/
def urlparseSchemePath (checkBrackets : Bool) (url : String) :
    Except Unit (List Char × List Char) :=
  if checkBrackets && (urlparseRaw url).2 then .error () else .ok (urlparseRaw url).1

/-- Source `strip_server_url`: parse the storage file id with `urlparse`; if
a scheme is present return the parsed path, otherwise return the input
unchanged.  The parse itself can raise (unbalanced bracket in the network
location), which propagates out of `register_file` uncaught. -/
def strip_server_url (storage_file_id : String) : Except FatalError String :=
  match urlparseSchemePath true storage_file_id with
  | .error _ => .error .valueErrorInvalidIPv6
  | .ok sp => if sp.1.isEmpty then .ok storage_file_id else .ok (String.mk sp.2)

/-- Modelled from the spec: "given a string that may be a bare
filesystem-style path or a fully qualified URL, return the path component
only when a URL scheme is present; otherwise return the input unchanged.
No error conditions — malformed input is passed through as-is".  This is the
total function the spec describes: the same parse with the bracket
validation (the only error source) disabled. -/
def strip_server_url_specModel (storage_file_id : String) : String :=
  match urlparseSchemePath false storage_file_id with
  | .error _ => storage_file_id
  | .ok sp => if sp.1.isEmpty then storage_file_id else String.mk sp.2

/-- Run-wide configuration from the command line (`args`). -/
structure Config where
  host : String
  space_id : String
  storage_id : String
  token : String
  mode : String
  disable_auto_detection : Bool
  disable_cert_verification : Bool
  logging_freq : Option Int
deriving DecidableEq, Repr

/-- The JSON payload of one registration POST, as built in `register_file`. -/
structure RegRequest where
  spaceId : String
  storageId : String
  storageFileId : String
  destinationPath : String
  size : Option Int
  mode : String
  checksum : String
  autoDetectAttributes : Bool
deriving DecidableEq, Repr

/-- The payload `register_file` builds after stripping the server URL: the
stripped id doubles as storage file id and destination path, and
auto-detection is the negation of the disable flag. -/
def mkPayload (cfg : Config) (storage_file_id : String) (size : Option Int)
    (checksum : String) : RegRequest :=
  ⟨cfg.space_id, cfg.storage_id, storage_file_id, storage_file_id, size,
    cfg.mode, checksum, !cfg.disable_auto_detection⟩

/-- What the one registration POST does, abstracting the network: either an
HTTP response with a status code and body, or a transport-level exception. -/
inductive HttpOutcome where
  | response (status : Nat) (body : String)
  | exception (msg : String)
deriving DecidableEq, Repr

/-- Observable output lines: `logging.error` calls and the periodic progress
`print`, with the data each one interpolates. -/
inductive LogEntry where
  /-- "Registration of {id} failed with HTTP status {status}. Response: {body}" -/
  | httpFailure (storageFileId : String) (status : Nat) (body : String)
  /-- "Registration of {id} failed due to {e}" -/
  | transportFailure (storageFileId : String) (msg : String)
  /-- "Registered {count} files" -/
  | progress (count : Int)
deriving DecidableEq, Repr

/-- Whether a log entry is the periodic progress line. -/
def LogEntry.isProgress : LogEntry → Bool
  | .progress _ => true
  | _ => false

/-- Source `register_file`: strips the server URL (outside the try block, so
its `ValueError` is fatal), builds the payload, performs the POST, and maps
the outcome: status 201 (`HTTPStatus.CREATED`) to `True`, any other status to
`False` with an error log, and a transport exception to an implicit `None`
(falsy) with an error log.  Returns the payload sent, the Python return
value (`Option Bool`), and the log lines. -/
def register_file (cfg : Config) (storage_file_id : String) (size : Option Int)
    (checksum : String) (outcome : HttpOutcome) :
    Except FatalError (RegRequest × Option Bool × List LogEntry) :=
  match strip_server_url storage_file_id with
  | .error e => .error e
  | .ok sfi =>
    let payload := mkPayload cfg sfi size checksum
    match outcome with
    | .response status body =>
      if status = 201 then .ok (payload, some true, [])
      else .ok (payload, some false, [.httpFailure sfi status body])
    | .exception msg => .ok (payload, none, [.transportFailure sfi msg])

/-- The run totals: `total_size` and `total_count` (Python integers). -/
structure RunState where
  total_size : Int
  total_count : Int
deriving DecidableEq, Repr

/-- The media-type test of the main loop:
`get_type(file_field) in ACCEPTED_TYPES` (Python's `None in list` is
`False`). -/
def typeAccepted (field : MarcField) : Bool :=
  match get_type field with
  | some t => ACCEPTED_TYPES.contains t
  | none => false

/-- The eligibility guard of the main loop: the two nested `if`s
`is_http_access_method(file_field)` and
`get_type(file_field) in ACCEPTED_TYPES`. -/
def eligible (field : MarcField) : Bool :=
  is_http_access_method field && typeAccepted field

/-- The periodic progress print of the main loop:
`if args.logging_freq and total_count % args.logging_freq == 0 and
total_count > 0`.  `None` and `0` are falsy; Python `%` is `Int.fmod`. -/
def progressLog (freq : Option Int) (count : Int) : List LogEntry :=
  match freq with
  | none => []
  | some n =>
    if n ≠ 0 ∧ Int.fmod count n = 0 ∧ 0 < count then [.progress count] else []

/-- Result of processing one link field in the main loop: the registration
payload if one was sent, the log lines produced, and either the new run state
or the uncaught exception that aborted the run. -/
structure StepResult where
  request : Option RegRequest
  logs : List LogEntry
  result : Except FatalError RunState
deriving Repr

/-- The body of the inner `for file_field in file_fields` loop, for one
field.  Mirrors the source's evaluation order: the eligibility guards; then
the arguments of `register_file` left to right (`get_uri` cannot raise,
`get_size` and `get_md5_checksum` can); then `register_file` itself, whose
`strip_server_url` call raises `AttributeError` on a `None` URI and can
raise `ValueError`; on a truthy return value, `total_size += get_size(...)`
(a `TypeError` when the size is `None`), `total_count += 1`, and the
periodic progress print. -/
def processField (cfg : Config) (field : MarcField) (outcome : HttpOutcome)
    (st : RunState) : StepResult :=
  if eligible field then
    match get_size field with
    | .error e => ⟨none, [], .error e⟩
    | .ok size =>
      match get_md5_checksum field with
      | .error e => ⟨none, [], .error e⟩
      | .ok checksum =>
        match get_uri field with
        | none => ⟨none, [], .error .attributeErrorNoneUrl⟩
        | some uri =>
          match register_file cfg uri size checksum outcome with
          | .error e => ⟨none, [], .error e⟩
          | .ok (payload, res, lgs) =>
            if res = some true then
              match size with
              | none => ⟨some payload, lgs, .error .typeErrorNonePlusInt⟩
              | some n =>
                let st' : RunState := ⟨st.total_size + n, st.total_count + 1⟩
                ⟨some payload, lgs ++ progressLog cfg.logging_freq st'.total_count,
                  .ok st'⟩
            else ⟨some payload, lgs, .ok st⟩
  else ⟨none, [], .ok st⟩

/-- The inner loop over a list of link fields, each paired with the outcome
its registration POST would have.  Accumulates log lines; an uncaught
exception stops the run. -/
def runFields (cfg : Config) : List (MarcField × HttpOutcome) → RunState →
    List LogEntry × Except FatalError RunState
  | [], st => ([], .ok st)
  | (f, o) :: rest, st =>
    let step := processField cfg f o st
    match step.result with
    | .error e => (step.logs, .error e)
    | .ok st' =>
      let r := runFields cfg rest st'
      (step.logs ++ r.1, r.2)

/-- Source `get_file_fields` composed with `download_and_load_marc21_record`,
with the document abstracted as its parsed record list: the fetcher returns
the first record when there is one (`records[0] if records`), and
`get_file_fields` returns that record's 856 fields — or Python `None` (not an
empty list) when the document yields no record. -/
def get_file_fields (records : List Record) : Option (List MarcField) :=
  match records.head? with
  | some r => some (get_fields r ELECTRONIC_LOCATION_AND_ACCESS)
  | none => none

/-- One iteration of the outer `for collection_url in args.collections`
loop: extract the file fields and run the inner loop over them.  When
`get_file_fields` returned `None`, `for file_field in file_fields` raises
`TypeError: 'NoneType' object is not iterable`.  The outcome of each field's
registration POST is supplied by `outcomeFor`. -/
def processCollection (cfg : Config) (records : List Record)
    (outcomeFor : MarcField → HttpOutcome) (st : RunState) :
    List LogEntry × Except FatalError RunState :=
  match get_file_fields records with
  | none => ([], .error .typeErrorNoneNotIterable)
  | some fields => runFields cfg (fields.map (fun f => (f, outcomeFor f))) st

/-- A sample configuration used by concrete witnesses. -/
def cfg0 : Config :=
  ⟨"oneprovider.example", "spc1", "stg1", "tok1", "0664", false, false, none⟩

/-- The sample configuration with logging frequency 1. -/
def cfg1 : Config :=
  ⟨"oneprovider.example", "spc1", "stg1", "tok1", "0664", false, false, some 1⟩

/-! ## Helper lemmas -/

theorem pySplit_ne_nil (sep : Char) (cs : List Char) : pySplit sep cs ≠ [] := by
  induction cs with
  | nil => simp [pySplit]
  | cons c cs ih =>
    simp only [pySplit]
    split
    · simp
    · cases h : pySplit sep cs with
      | nil => exact absurd h ih
      | cons s ss => simp

theorem pySplit_of_not_mem {sep : Char} {cs : List Char} (h : sep ∉ cs) :
    pySplit sep cs = [cs] := by
  induction cs with
  | nil => rfl
  | cons c cs ih =>
    rw [List.mem_cons, not_or] at h
    simp only [pySplit, if_neg (fun hc : c = sep => h.1 hc.symm), ih h.2]

theorem urlparse_nocheck_of_check {s : String} {x : List Char × List Char}
    (h : urlparseSchemePath true s = .ok x) : urlparseSchemePath false s = .ok x := by
  unfold urlparseSchemePath at h ⊢
  simp only [Bool.false_and, if_neg] at *
  cases hb : (urlparseRaw s).2 with
  | true => rw [hb] at h; simp at h
  | false => rw [hb] at h; simpa using h

/-! ## Claim C5 -/

/-- C5: checksum derivation splits the control-number string on `;` and
returns the second segment — on the documented example it yields the md5
hex digest — and a control number with no `;` separator raises an uncaught
`IndexError`, which aborts the run when it happens while processing an
eligible field. -/
theorem c5_checksum_derivation :
    parse_md5 "(OCoLC)12345;d41d8cd98f00b204e9800998ecf8427e"
      = .ok "d41d8cd98f00b204e9800998ecf8427e"
    ∧ (∀ cn : String, ';' ∉ cn.data → parse_md5 cn = .error .indexErrorChecksum)
    ∧ (∀ cfg f o st cn szo, eligible f = true → get_size f = .ok szo →
        get_control_number f = some cn → ';' ∉ cn.data →
        (processField cfg f o st).result = .error .indexErrorChecksum) := by
  refine ⟨rfl, ?_, ?_⟩
  · intro cn h
    simp [parse_md5, pySplit_of_not_mem h]
  · intro cfg f o st cn szo he hs hcn hmem
    simp [processField, he, hs, get_md5_checksum, hcn, parse_md5,
      pySplit_of_not_mem hmem]

/-- Closed instance of `c5_checksum_derivation`: the control number "abc"
has no `;`, and checksum derivation fails on it with the `IndexError`. -/
theorem c5_checksum_derivation_witness :
    parse_md5 "abc" = .error .indexErrorChecksum :=
  c5_checksum_derivation.2.1 "abc" (by decide)

/-! ## Claim C4 -/

/-- C4 as stated is false: the Resource Locator Resolver is not total.  On
the input "http://[" the underlying URL parse raises
`ValueError("Invalid IPv6 URL")` (unbalanced bracket in the network
location), which `strip_server_url` does not catch. -/
theorem c4_resolver_not_total_counterexample :
    strip_server_url "http://[" = .error .valueErrorInvalidIPv6 := rfl

/-- C4 amended: on every input on which the underlying URL parse does not
raise, the resolver behaves as specified — the path component of the parsed
URL when a scheme is present, the input unchanged otherwise (the total
function `strip_server_url_specModel` written from the spec's words) — and
in particular on the spec's two examples; but inputs whose network location
has an unbalanced square bracket raise an uncaught `ValueError` instead. -/
theorem c4_resolver_amended :
    (∀ s r, strip_server_url s = .ok r → r = strip_server_url_specModel s)
    ∧ strip_server_url "https://host/a/b.mp4" = .ok "/a/b.mp4"
    ∧ strip_server_url "/a/b.mp4" = .ok "/a/b.mp4" := by
  refine ⟨?_, rfl, rfl⟩
  intro s r h
  unfold strip_server_url at h
  cases hp : urlparseSchemePath true s with
  | error e => rw [hp] at h; simp at h
  | ok sp =>
    rw [hp] at h
    unfold strip_server_url_specModel
    rw [urlparse_nocheck_of_check hp]
    by_cases hsc : sp.1.isEmpty
    · simp [hsc] at h ⊢; exact h.symm
    · simp [hsc] at h ⊢; exact h.symm

/-- Closed instance of `c4_resolver_amended`: on the concrete input
"https://host/a/b.mp4" the resolver result agrees with the spec model. -/
theorem c4_resolver_amended_witness :
    ("/a/b.mp4" : String) = strip_server_url_specModel "https://host/a/b.mp4" :=
  c4_resolver_amended.1 "https://host/a/b.mp4" "/a/b.mp4" rfl

/-! ## Claim C1 -/

/-- C1: a link field is eligible iff its first indicator equals the HTTP
access code "4" and its first `q` subfield value is exactly one of "MP4",
"MKV", "MOV" (case-sensitive); a field with no `q` subfield is never
eligible (no `t` satisfies the existential); and a registration request is
only ever sent for an eligible field. -/
theorem c1_eligibility (f : MarcField) :
    (eligible f = true ↔
      f.indicator1 = "4"
        ∧ ∃ t, get_type f = some t ∧ (t = "MP4" ∨ t = "MKV" ∨ t = "MOV"))
    ∧ (∀ cfg o st r, (processField cfg f o st).request = some r →
        eligible f = true) := by
  constructor
  · unfold eligible is_http_access_method get_access_method HTTP_ACCESS_METHOD
      typeAccepted ACCEPTED_TYPES
    cases hq : get_type f with
    | none => simp [hq]
    | some t =>
      simp only [hq, Bool.and_eq_true, beq_iff_eq, List.contains, List.elem_eq_mem,
        decide_eq_true_eq, List.mem_cons, List.not_mem_nil, or_false,
        Option.some.injEq]
      constructor
      · rintro ⟨h1, h2⟩; exact ⟨h1, t, rfl, h2⟩
      · rintro ⟨h1, t', ht', h2⟩
        cases ht'
        exact ⟨h1, h2⟩
  · intro cfg o st r h
    by_cases he : eligible f
    · exact he
    · simp [processField, he] at h

/-- Closed instance of `c1_eligibility`: a concrete field with indicator "4"
and type "MP4" is eligible. -/
theorem c1_eligibility_witness :
    eligible ⟨"856", "4", [("q", "MP4")]⟩ = true :=
  (c1_eligibility _).1.mpr ⟨rfl, "MP4", rfl, Or.inl rfl⟩

/-! ## Sample data for closed witnesses -/

/-- A sample eligible link field: HTTP access, MP4, size 1000, bare path
URI, control number carrying checksum "ck1". -/
def sampleFieldA : MarcField :=
  ⟨"856", "4", [("q", "MP4"), ("s", "1000"), ("u", "/a.mp4"), ("w", "x;ck1")]⟩

/-- A second sample eligible link field: HTTP access, MOV, size 500. -/
def sampleFieldB : MarcField :=
  ⟨"856", "4", [("q", "MOV"), ("s", "500"), ("u", "/b.mov"), ("w", "x;ck2")]⟩

/-- A sample eligible link field with no size subfield. -/
def sampleFieldNoSize : MarcField :=
  ⟨"856", "4", [("q", "MP4"), ("u", "/a.mp4"), ("w", "x;ck1")]⟩

/-- A sample eligible link field with no control-number (`w`) subfield. -/
def sampleFieldNoW : MarcField :=
  ⟨"856", "4", [("q", "MP4"), ("s", "1000"), ("u", "/a.mp4")]⟩

/-- A sample eligible link field whose size subfield parses to a negative
integer. -/
def sampleFieldNeg : MarcField :=
  ⟨"856", "4", [("q", "MP4"), ("s", "-5"), ("u", "/a.mp4"), ("w", "x;ck1")]⟩

/-! ## Claim C3 -/

/-- C3: with the storage file id resolving to `sfi`, the Registration Client
returns `True` on an HTTP 201 response; on any other status it returns
`False` and logs the storage file id, status code and response body; and on
a transport exception it falls off the function (Python `None`, falsy) and
logs the error — so its value equals `some true` only on 201. -/
theorem c3_register_file_outcomes (cfg : Config) (storage_file_id : String)
    (size : Option Int) (checksum : String) (sfi : String)
    (hstrip : strip_server_url storage_file_id = .ok sfi) :
    (∀ body, register_file cfg storage_file_id size checksum (.response 201 body)
        = .ok (mkPayload cfg sfi size checksum, some true, []))
    ∧ (∀ status body, status ≠ 201 →
        register_file cfg storage_file_id size checksum (.response status body)
          = .ok (mkPayload cfg sfi size checksum, some false,
              [.httpFailure sfi status body]))
    ∧ (∀ msg, register_file cfg storage_file_id size checksum (.exception msg)
        = .ok (mkPayload cfg sfi size checksum, none,
            [.transportFailure sfi msg])) := by
  refine ⟨?_, ?_, ?_⟩ <;> intros <;> simp [register_file, hstrip, *]

/-- Closed instance of `c3_register_file_outcomes`: a 403 response for a
concrete file yields `False` and the error log with id, status and body. -/
theorem c3_register_file_outcomes_witness :
    register_file cfg0 "/a.mp4" (some 5) "ck" (.response 403 "denied")
      = .ok (mkPayload cfg0 "/a.mp4" (some 5) "ck", some false,
          [.httpFailure "/a.mp4" 403 "denied"]) :=
  (c3_register_file_outcomes cfg0 "/a.mp4" (some 5) "ck" "/a.mp4" rfl).2.1
    403 "denied" (by decide)

/-! ## Claim C2 -/

/-- C2: for an eligible field whose accessors succeed (URI `u` stripping to
`sfi`, declared size `n`, checksum `cks`), a registration answered 201
increases the totals by exactly one file and by `n`; a registration answered
with any other status, or failing with a transport exception, leaves the
totals unchanged. -/
theorem c2_totals (cfg : Config) (f : MarcField) (st : RunState)
    (u sfi : String) (n : Int) (cks : String)
    (he : eligible f = true) (hu : get_uri f = some u)
    (hn : get_size f = .ok (some n)) (hc : get_md5_checksum f = .ok cks)
    (hs : strip_server_url u = .ok sfi) :
    (∀ body, (processField cfg f (.response 201 body) st).result
        = .ok ⟨st.total_size + n, st.total_count + 1⟩)
    ∧ (∀ status body, status ≠ 201 →
        (processField cfg f (.response status body) st).result = .ok st)
    ∧ (∀ msg, (processField cfg f (.exception msg) st).result = .ok st) := by
  refine ⟨?_, ?_, ?_⟩ <;> intros <;>
    simp [processField, register_file, he, hu, hn, hc, hs, *]

/-- Closed instance of `c2_totals`: a successful registration of
`sampleFieldA` from the zero state yields totals (1000, 1). -/
theorem c2_totals_witness :
    (processField cfg0 sampleFieldA (.response 201 "") ⟨0, 0⟩).result
      = .ok ⟨1000, 1⟩ := by
  simpa using
    (c2_totals cfg0 sampleFieldA ⟨0, 0⟩ "/a.mp4" "/a.mp4" 1000 "ck1"
      rfl rfl rfl rfl rfl).1 ""

/-! ## Claim C7 -/

/-- C7: for an eligible field with no size subfield whose registration is
answered 201, the request is sent with a null size, and the subsequent
totals update `total_size += None` raises an uncaught `TypeError`, aborting
the run. -/
theorem c7_null_size (cfg : Config) (f : MarcField) (st : RunState)
    (u sfi cks : String)
    (he : eligible f = true) (hu : get_uri f = some u)
    (hn : get_size f = .ok none) (hc : get_md5_checksum f = .ok cks)
    (hs : strip_server_url u = .ok sfi) (body : String) :
    processField cfg f (.response 201 body) st
      = ⟨some (mkPayload cfg sfi none cks), [], .error .typeErrorNonePlusInt⟩ := by
  simp [processField, register_file, he, hu, hn, hc, hs]

/-- Closed instance of `c7_null_size`: `sampleFieldNoSize` is registered
with `size = none` and the run aborts on the totals update. -/
theorem c7_null_size_witness :
    processField cfg0 sampleFieldNoSize (.response 201 "") ⟨0, 0⟩
      = ⟨some (mkPayload cfg0 "/a.mp4" none "ck1"), [],
          .error .typeErrorNonePlusInt⟩ :=
  c7_null_size cfg0 sampleFieldNoSize ⟨0, 0⟩ "/a.mp4" "/a.mp4" "ck1"
    rfl rfl rfl rfl rfl ""

/-! ## Claim C10 -/

/-- C10: for an eligible field with no `w` subfield at all (and a size
subfield that itself evaluates without error), checksum derivation hits
`None.split`, an uncaught `AttributeError`: the step aborts with no
registration request sent, and this failure is a constructor distinct from
the missing-`;`-separator `IndexError`. -/
theorem c10_missing_control_number (cfg : Config) (f : MarcField)
    (o : HttpOutcome) (st : RunState) (szo : Option Int)
    (he : eligible f = true) (hn : get_size f = .ok szo)
    (hw : get_subfields f "w" = []) :
    processField cfg f o st = ⟨none, [], .error .attributeErrorNoneSplit⟩
    ∧ FatalError.attributeErrorNoneSplit ≠ FatalError.indexErrorChecksum := by
  have hcn : get_control_number f = none := by
    simp [get_control_number, get_subfield, hw]
  exact ⟨by simp [processField, he, hn, get_md5_checksum, hcn], by decide⟩

/-- Closed instance of `c10_missing_control_number`: `sampleFieldNoW` aborts
the run before any request is sent. -/
theorem c10_missing_control_number_witness :
    processField cfg0 sampleFieldNoW (.response 201 "") ⟨0, 0⟩
      = ⟨none, [], .error .attributeErrorNoneSplit⟩ :=
  (c10_missing_control_number cfg0 sampleFieldNoW (.response 201 "") ⟨0, 0⟩
    (some 1000) rfl rfl rfl).1

/-! ## More helper lemmas -/

theorem fmod_zero_iff_dvd (a b : Int) : a.fmod b = 0 ↔ b ∣ a := by
  constructor
  · intro h
    have hd := Int.fmod_add_fdiv a b
    rw [h, Int.zero_add] at hd
    exact ⟨a.fdiv b, hd.symm⟩
  · rintro ⟨k, rfl⟩
    rw [Int.mul_comm]
    exact Int.mul_fmod_left k b

/-- Processing one field either leaves the state unchanged or increments the
count by one and the size by the field's parsed size. -/
theorem processField_result_cases (cfg : Config) (f : MarcField)
    (o : HttpOutcome) (st st' : RunState)
    (h : (processField cfg f o st).result = .ok st') :
    st' = st ∨ ∃ n, get_size f = .ok (some n)
      ∧ st' = ⟨st.total_size + n, st.total_count + 1⟩ := by
  by_cases he : eligible f
  case neg => simp [processField, he] at h; exact Or.inl h.symm
  case pos =>
  cases hs : get_size f with
  | error e => simp [processField, he, hs] at h
  | ok sz =>
  cases hc : get_md5_checksum f with
  | error e => simp [processField, he, hs, hc] at h
  | ok cks =>
  cases hu : get_uri f with
  | none => simp [processField, he, hs, hc, hu] at h
  | some u =>
  cases hr : register_file cfg u sz cks o with
  | error e => simp [processField, he, hs, hc, hu, hr] at h
  | ok t =>
  obtain ⟨payload, res, lgs⟩ := t
  by_cases hres : res = some true
  case neg =>
    simp [processField, he, hs, hc, hu, hr, hres] at h
    exact Or.inl h.symm
  case pos =>
  cases sz with
  | none => simp [processField, he, hs, hc, hu, hr, hres] at h
  | some n =>
    simp [processField, he, hs, hc, hu, hr, hres] at h
    exact Or.inr ⟨n, rfl, h.symm⟩

/-- The log lines produced by one registration POST contain no progress
line (they are failure logs only). -/
theorem register_file_logs_no_progress (cfg : Config) (u : String)
    (sz : Option Int) (cks : String) (o : HttpOutcome)
    (p : RegRequest) (res : Option Bool) (lgs : List LogEntry)
    (h : register_file cfg u sz cks o = .ok (p, res, lgs)) :
    lgs.filter LogEntry.isProgress = [] := by
  unfold register_file at h
  cases hs : strip_server_url u with
  | error e => rw [hs] at h; simp at h
  | ok sfi =>
  rw [hs] at h
  cases o with
  | response status body =>
    by_cases h201 : status = 201
    · simp [h201] at h
      obtain ⟨-, -, rfl⟩ := h
      rfl
    · simp [h201] at h
      obtain ⟨-, -, rfl⟩ := h
      simp [LogEntry.isProgress]
  | exception msg =>
    simp at h
    obtain ⟨-, -, rfl⟩ := h
    simp [LogEntry.isProgress]

/-- With no logging frequency configured, processing one field produces no
progress line. -/
theorem processField_logs_no_progress (cfg : Config) (f : MarcField)
    (o : HttpOutcome) (st : RunState) (hf : cfg.logging_freq = none) :
    (processField cfg f o st).logs.filter LogEntry.isProgress = [] := by
  by_cases he : eligible f
  case neg => simp [processField, he]
  case pos =>
  cases hs : get_size f with
  | error e => simp [processField, he, hs]
  | ok sz =>
  cases hc : get_md5_checksum f with
  | error e => simp [processField, he, hs, hc]
  | ok cks =>
  cases hu : get_uri f with
  | none => simp [processField, he, hs, hc, hu]
  | some u =>
  cases hr : register_file cfg u sz cks o with
  | error e => simp [processField, he, hs, hc, hu, hr]
  | ok t =>
  obtain ⟨payload, res, lgs⟩ := t
  have hlgs := register_file_logs_no_progress cfg u sz cks o payload res lgs hr
  by_cases hres : res = some true
  case neg => simp [processField, he, hs, hc, hu, hr, hres, hlgs]
  case pos =>
  cases sz with
  | none => simp [processField, he, hs, hc, hu, hr, hres, hlgs]
  | some n =>
    simp [processField, he, hs, hc, hu, hr, hres, List.filter_append, hlgs,
      progressLog, hf]

/-! ## Claim C8 -/

/-- C8 fails as stated: the claim quantifies over any integer value the size
subfield parses to, but a size subfield "-5" parses to the integer -5 and a
successful registration then decreases `total_size` from 0 to -5. -/
theorem c8_totals_decrease_counterexample :
    (processField cfg0 sampleFieldNeg (.response 201 "") ⟨0, 0⟩).result
        = .ok ⟨-5, 1⟩
    ∧ ((-5 : Int) < 0 ∧ get_size sampleFieldNeg = .ok (some (-5))) :=
  ⟨rfl, by decide, rfl⟩

/-- C8 amended: across every step of the processing loop `total_count` is
non-decreasing, and `total_size` is non-decreasing provided the field's size
subfield does not parse to a negative integer (the code itself never
enforces non-negativity). -/
theorem c8_totals_monotone_amended (cfg : Config) (f : MarcField)
    (o : HttpOutcome) (st st' : RunState)
    (h : (processField cfg f o st).result = .ok st') :
    st.total_count ≤ st'.total_count
    ∧ ((∀ n, get_size f = .ok (some n) → 0 ≤ n) →
        st.total_size ≤ st'.total_size) := by
  rcases processField_result_cases cfg f o st st' h with rfl | ⟨n, hn, rfl⟩
  · exact ⟨le_refl _, fun _ => le_refl _⟩
  · constructor
    · show st.total_count ≤ st.total_count + 1
      omega
    · intro hpos
      have hn0 := hpos n hn
      show st.total_size ≤ st.total_size + n
      omega

/-- Closed instance of `c8_totals_monotone_amended`: a successful
registration of `sampleFieldA` (size 1000 ≥ 0) takes the totals from (0, 0)
to (1000, 1), non-decreasing in both components. -/
theorem c8_totals_monotone_amended_witness :
    (0 : Int) ≤ 1
    ∧ ((∀ n, get_size sampleFieldA = .ok (some n) → 0 ≤ n) →
        (0 : Int) ≤ 1000) :=
  c8_totals_monotone_amended cfg0 sampleFieldA (.response 201 "") ⟨0, 0⟩
    ⟨1000, 1⟩ rfl

/-! ## Claim C9 -/

/-- C9: with no logging frequency configured a run prints no progress line;
with frequency N configured, a successful registration prints the progress
line with the new cumulative count exactly when that count is a positive
multiple of N; and the concrete scenario with N = 1 and two successful
registrations prints exactly the two lines with cumulative counts 1 and 2. -/
theorem c9_progress_logging :
    (∀ cfg l st, cfg.logging_freq = none →
      ((runFields cfg l st).1.filter LogEntry.isProgress) = [])
    ∧ (∀ (cfg : Config) (f : MarcField) (st : RunState) (u sfi : String)
        (n N : Int) (cks body : String),
        cfg.logging_freq = some N →
        eligible f = true → get_uri f = some u → get_size f = .ok (some n) →
        get_md5_checksum f = .ok cks → strip_server_url u = .ok sfi →
        (processField cfg f (.response 201 body) st).logs.filter
            LogEntry.isProgress
          = if N ≠ 0 ∧ N ∣ (st.total_count + 1) ∧ 0 < st.total_count + 1
            then [.progress (st.total_count + 1)] else [])
    ∧ runFields cfg1
        [(sampleFieldA, .response 201 ""), (sampleFieldB, .response 201 "")]
        ⟨0, 0⟩
      = ([.progress 1, .progress 2], .ok ⟨1500, 2⟩) := by
  refine ⟨?_, ?_, rfl⟩
  · intro cfg l st hf
    induction l generalizing st with
    | nil => rfl
    | cons p rest ih =>
      obtain ⟨f, o⟩ := p
      simp only [runFields]
      cases hres : (processField cfg f o st).result with
      | error e => simpa using processField_logs_no_progress cfg f o st hf
      | ok st' =>
        simp only [List.filter_append]
        rw [processField_logs_no_progress cfg f o st hf, ih st']
        rfl
  · intro cfg f st u sfi n N cks body hf he hu hn hc hs
    simp only [processField, register_file, he, hu, hn, hc, hs, if_true,
      progressLog, hf, List.nil_append, if_pos, reduceIte]
    simp only [fmod_zero_iff_dvd]
    split
    · simp [LogEntry.isProgress]
    · rfl

/-- Closed instance of `c9_progress_logging`: with no frequency configured,
a run over one successfully registered field prints no progress line. -/
theorem c9_progress_logging_witness :
    ((runFields cfg0 [(sampleFieldA, .response 201 "")] ⟨0, 0⟩).1.filter
      LogEntry.isProgress) = [] :=
  c9_progress_logging.1 cfg0 [(sampleFieldA, .response 201 "")] ⟨0, 0⟩ rfl

/-! ## Claim C6 -/

/-- C6 fails for the absent-record case: when the collection document yields
no record, the Link Field Extractor returns Python `None` — not an empty
sequence — and the Run Aggregator's `for` loop over it raises an uncaught
`TypeError`, aborting the run instead of proceeding. -/
theorem c6_absent_record_counterexample :
    get_file_fields ([] : List Record) = none
    ∧ get_file_fields ([] : List Record) ≠ some []
    ∧ processCollection cfg0 [] (fun _ => .exception "e") ⟨0, 0⟩
        = ([], .error .typeErrorNoneNotIterable) :=
  ⟨rfl, by simp [get_file_fields], rfl⟩

/-- C6 amended: when the document yields a record but the record has no
856 fields, the extractor returns the empty sequence and the collection is
processed without error, leaving the state unchanged; when the document
yields no record at all, the extractor returns an absent value (`None`, not
an empty sequence) and the aggregator aborts with an uncaught `TypeError`. -/
theorem c6_no_fields_amended (cfg : Config) (outs : MarcField → HttpOutcome)
    (st : RunState) (r : Record) (rest : List Record)
    (hr : get_fields r ELECTRONIC_LOCATION_AND_ACCESS = []) :
    get_file_fields (r :: rest) = some []
    ∧ processCollection cfg (r :: rest) outs st = ([], .ok st)
    ∧ (∀ cfg' outs' st', processCollection cfg' ([] : List Record) outs' st'
        = ([], .error .typeErrorNoneNotIterable)) := by
  refine ⟨?_, ?_, fun cfg' outs' st' => rfl⟩
  · simp [get_file_fields, hr]
  · simp [processCollection, get_file_fields, hr, runFields]

/-- Closed instance of `c6_no_fields_amended`: a document whose record has a
single non-856 field is processed without error and without changing the
totals. -/
theorem c6_no_fields_amended_witness :
    processCollection cfg0 [([⟨"245", "0", []⟩] : Record)]
      (fun _ => .exception "e") ⟨0, 0⟩ = ([], .ok ⟨0, 0⟩) :=
  (c6_no_fields_amended cfg0 (fun _ => .exception "e") ⟨0, 0⟩
    ([⟨"245", "0", []⟩] : Record) [] rfl).2.1
